import Mathlib

/-!
Verification of the browser-side logic of the NB video downloader frontend.

The development shallowly embeds the two source modules:
* the `VideoAPI` helper functions (URL validation, video-id extraction,
  number formatting, error-message humanization) as pure functions on
  `String` / `List Char`;
* the `VideoDownloadApp` controller as explicit state passing over an
  `AppState` record whose fields mirror the instance variables and the
  DOM pieces the controller mutates (section visibility flags, rendered
  quality buttons, text spans).  Network calls are modelled by passing
  the outcome (`Except`) of the call to the continuation that the source
  runs after `await`.
-/

namespace VideoAPI

/-- A character of the character class used by the URL patterns:
JS `\w` (ASCII letters, digits, underscore) plus the hyphen. -/
def isUrlWordChar (c : Char) : Bool :=
  c.isAlpha || c.isDigit || c = '_' || c = '-'

/-- Whitespace stripped by `String.prototype.trim` (the ASCII part,
which is all the sources ever feed it). -/
def isWsChar (c : Char) : Bool :=
  c = ' ' || c = '\t' || c = '\n' || c = '\r'

/-- `url.trim()` on the character list: drop whitespace from both ends. -/
def trimList (l : List Char) : List Char :=
  (l.dropWhile isWsChar).rdropWhile isWsChar

/-- `url.trim()` at the `String` level. -/
def trimStr (s : String) : String :=
  ⟨trimList s.data⟩

/-- The prefixes generated by the regular expression
`^https?:\/\/(www\.)?youtube\.com\/watch\?v=` (scheme alternation and the
optional `www.` expanded). -/
def watchPrefixList : List String :=
  ["http://youtube.com/watch?v=", "http://www.youtube.com/watch?v=",
   "https://youtube.com/watch?v=", "https://www.youtube.com/watch?v="]

/-- The prefixes generated by `^https?:\/\/youtu\.be\/`. -/
def shortPrefixList : List String :=
  ["http://youtu.be/", "https://youtu.be/"]

/-- The prefixes generated by `^https?:\/\/(www\.)?youtube\.com\/embed\/`. -/
def embedPrefixList : List String :=
  ["http://youtube.com/embed/", "http://www.youtube.com/embed/",
   "https://youtube.com/embed/", "https://www.youtube.com/embed/"]

/-- The prefixes generated by `^https?:\/\/(www\.)?youtube\.com\/v\/`. -/
def vPrefixList : List String :=
  ["http://youtube.com/v/", "http://www.youtube.com/v/",
   "https://youtube.com/v/", "https://www.youtube.com/v/"]

/-- `pattern.test(url)` for an anchored pattern `^<literal>[\w-]+`:
the url starts with the literal and at least one id character follows. -/
def testAnchored (lit : List Char) (l : List Char) : Bool :=
  lit.isPrefixOf l &&
    (match l.drop lit.length with
     | c :: _ => isUrlWordChar c
     | [] => false)

/-- `patterns.some(pattern => pattern.test(trimmedUrl))` over the four
recognized YouTube URL shapes. -/
def matchesAnyPattern (l : List Char) : Bool :=
  watchPrefixList.any (fun p => testAnchored p.data l) ||
  shortPrefixList.any (fun p => testAnchored p.data l) ||
  embedPrefixList.any (fun p => testAnchored p.data l) ||
  vPrefixList.any (fun p => testAnchored p.data l)

/-- `VideoAPI.validateYouTubeURL`: reject a falsy (empty) url, trim, and
test the four anchored patterns. -/
def validateYouTubeURL (url : String) : Bool :=
  if url = "" then false
  else matchesAnyPattern (trimList url.data)

/-- Leftmost match of `[?&]v=([^&]+)`: scan for the first `?`/`&`
immediately followed by `v=` and a nonempty run of non-`&` characters,
returning that run (the capturing group). -/
def captureVParam : List Char → Option (List Char)
  | [] => none
  | c :: rest =>
    if c = '?' || c = '&' then
      match rest with
      | 'v' :: '=' :: tail =>
        let cap := tail.takeWhile (fun ch => ch ≠ '&')
        if cap = [] then captureVParam rest else some cap
      | _ => captureVParam rest
    else captureVParam rest

/-- Leftmost match of `<literal>([^<stop>]+)`: scan for the first
occurrence of the literal followed by a nonempty run of characters other
than `stop`, returning that run (the capturing group). -/
def captureAfter (lit : List Char) (stop : Char) : List Char → Option (List Char)
  | [] => none
  | c :: rest =>
    if lit.isPrefixOf (c :: rest) then
      let cap := ((c :: rest).drop lit.length).takeWhile (fun ch => ch ≠ stop)
      if cap = [] then captureAfter lit stop rest else some cap
    else captureAfter lit stop rest

/-- `VideoAPI.extractVideoID`: `null` unless the url validates, then the
first capturing group of the first of the four extraction patterns
`[?&]v=([^&]+)`, `youtu\.be\/([^?]+)`, `embed\/([^?]+)`, `\/v\/([^?]+)`
that matches the trimmed url. -/
def extractVideoID (url : String) : Option String :=
  if validateYouTubeURL url = false then none
  else
    let t := trimList url.data
    match captureVParam t with
    | some cap => some ⟨cap⟩
    | none =>
      match captureAfter "youtu.be/".data '?' t with
      | some cap => some ⟨cap⟩
      | none =>
        match captureAfter "embed/".data '?' t with
        | some cap => some ⟨cap⟩
        | none =>
          match captureAfter "/v/".data '?' t with
          | some cap => some ⟨cap⟩
          | none => none

/-- Structural-recursion helper for the base-2 logarithm: the first
argument is fuel, always called with fuel at least the number itself. -/
def log2Fuel : Nat → Nat → Nat
  | 0, _ => 0
  | fuel + 1, n => if n ≥ 2 then log2Fuel fuel (n / 2) + 1 else 0

/-- `⌊log₂ n⌋` for `n ≥ 1` (and `0` at `0`). -/
def log2Nat (n : Nat) : Nat :=
  log2Fuel n n

/-- The IEEE binary64 (double) value nearest to `num / den` — correctly
rounded, ties to even — for `1 ≤ num / den`, returned exactly as a pair
`(M, s)` whose value is `M / 2^s`.  The significand is rounded at 53
bits: `e = ⌊log₂(num/den)⌋` (which equals `⌊log₂(num/den ⌊/⌋ den)⌋` for
`num ≥ den`), and `m` is the nearest-ties-even integer rounding of
`num·2^52 / (den·2^e)`. -/
def roundBinary64 (num den : Nat) : Nat × Nat :=
  let e := log2Nat (num / den)
  let N := num * 2 ^ 52
  let D := den * 2 ^ e
  let q := N / D
  let r := N % D
  let m :=
    if 2 * r < D then q
    else if D < 2 * r then q + 1
    else if q % 2 = 0 then q else q + 1
  if e ≤ 52 then (m, 52 - e) else (m * 2 ^ (e - 52), 0)

/-- `(num / den).toFixed(1)` as the program computes it for
`num ≥ den`: the quotient is first rounded to the nearest IEEE double
(ties to even), then the ECMA `toFixed` rule picks the integer `n` with
`n / 10` closest to that double, ties to the larger `n` — for a positive
double `x = M / 2^s` that is `⌊(20·M + 2^s) / 2^(s+1)⌋`. -/
def toFixed1 (num den : Nat) : String :=
  let ms := roundBinary64 num den
  let scaled := (20 * ms.1 + 2 ^ ms.2) / 2 ^ (ms.2 + 1)
  toString (scaled / 10) ++ "." ++ toString (scaled % 10)

/-- `VideoAPI.formatNumber`: suffix `B`/`M`/`K` at the 1e9/1e6/1e3
thresholds with one decimal place, else the plain decimal string. -/
def formatNumber (num : Nat) : String :=
  if num ≥ 1000000000 then toFixed1 num 1000000000 ++ "B"
  else if num ≥ 1000000 then toFixed1 num 1000000 ++ "M"
  else if num ≥ 1000 then toFixed1 num 1000 ++ "K"
  else toString num

/-- `pat` occurs as a contiguous run inside `l`
(JS `String.prototype.includes`). -/
def listContainsSub (pat : List Char) : List Char → Bool
  | [] => pat.isEmpty
  | c :: rest => pat.isPrefixOf (c :: rest) || listContainsSub pat rest

/-- `message.includes(pat)` at the `String` level. -/
def strIncludes (s pat : String) : Bool :=
  listContainsSub pat.data s.data

/-- `VideoAPI.handleError`: substring-match the raw message against the
known error patterns and return the canned user-facing sentence, falling
back to `"Error: <raw message>"`; an empty (falsy) message becomes
`"An unknown error occurred"` first. -/
def handleError (errMsg : String) : String :=
  let message := if errMsg = "" then "An unknown error occurred" else errMsg
  if strIncludes message "timeout" then
    "Request timed out. Please check your connection and try again."
  else if strIncludes message "fetch" then
    "Unable to connect to the server. Please check your internet connection."
  else if strIncludes message "Invalid YouTube URL" then
    "Please enter a valid YouTube video URL."
  else if strIncludes message "Video unavailable" then
    "This video is not available for download. It may be private, deleted, or restricted."
  else if strIncludes message "Age restricted" then
    "This video is age-restricted and cannot be downloaded."
  else if strIncludes message "Copyright" then
    "This video is protected by copyright and cannot be downloaded."
  else if strIncludes message "HTTP 429" then
    "Too many requests. Please wait a moment before trying again."
  else if strIncludes message "HTTP 500" then
    "Server error. Please try again later."
  else if strIncludes message "HTTP 400" then
    "Invalid request. Please check the video URL and try again."
  else "Error: " ++ message

end VideoAPI

namespace App

open VideoAPI

/-- One entry of the `formats` array of a preview response
(`{quality, format_id, filesize_formatted}`). -/
structure FormatOption where
  quality : String
  format_id : String
  filesize_formatted : String
  deriving DecidableEq, Repr

/-- The body of a successful `POST /preview` response. -/
structure VideoInfo where
  title : String
  uploader : String
  duration_formatted : String
  view_count : Nat
  like_count : Nat
  thumbnail : String
  formats : List FormatOption
  deriving DecidableEq, Repr

/-- The body of a `POST /download` response
(`{success, filename, message}`; the optional fields may be absent). -/
structure DownloadResponse where
  success : Bool
  filename : Option String
  message : Option String
  deriving DecidableEq, Repr

/-- The JSON body sent by `VideoAPI.downloadVideo`
(`{url: url.trim(), quality, format_id}`). -/
structure DownloadRequest where
  url : String
  quality : String
  format_id : Option String
  deriving DecidableEq, Repr

/-- A rendered quality button: its three `dataset` attributes and
whether it currently carries the `selected` class. -/
structure QualityButton where
  quality : String
  formatId : String
  filesize : String
  selected : Bool
  deriving DecidableEq, Repr

/-- The `hidden`-class flags of the five sections toggled by
`hideAllSections` and the `showX` methods (`true` = hidden). -/
structure Sections where
  loadingHidden : Bool
  previewHidden : Bool
  errorHidden : Bool
  successHidden : Bool
  downloadHidden : Bool
  deriving DecidableEq, Repr

/-- The controller state: the three instance variables of
`VideoDownloadApp` plus the DOM pieces its methods mutate. -/
structure AppState where
  currentVideoInfo : Option VideoInfo
  selectedQuality : Option String
  selectedFormatId : Option String
  videoUrlInput : String
  sections : Sections
  errorMessage : String
  buttons : List QualityButton
  selectedQualitySpan : String
  fileSizeSpan : String
  videoTitleText : String
  videoUploaderText : String
  videoDurationText : String
  videoViewsText : String
  videoLikesText : String
  thumbnailSrc : String
  downloadFilename : Option String
  deriving DecidableEq, Repr

/-- `hideAllSections`: add the `hidden` class to all five sections. -/
def hideAllSections (st : AppState) : AppState :=
  { st with sections := ⟨true, true, true, true, true⟩ }

/-- `showLoading`: hide everything, then unhide the loading section. -/
def showLoading (st : AppState) : AppState :=
  let st := hideAllSections st
  { st with sections := { st.sections with loadingHidden := false } }

/-- `showPreview`: hide everything, then unhide the preview section. -/
def showPreview (st : AppState) : AppState :=
  let st := hideAllSections st
  { st with sections := { st.sections with previewHidden := false } }

/-- `showDownloadSection`: unhide the download section only
(the other sections are left as they are). -/
def showDownloadSection (st : AppState) : AppState :=
  { st with sections := { st.sections with downloadHidden := false } }

/-- `showError(message)`: hide everything, set the error text, unhide
the error section. -/
def showError (message : String) (st : AppState) : AppState :=
  let st := hideAllSections st
  { st with errorMessage := message,
            sections := { st.sections with errorHidden := false } }

/-- `showSuccess(response)`: hide everything, point the download link at
the response filename, unhide the success section. -/
def showSuccess (resp : DownloadResponse) (st : AppState) : AppState :=
  let st := hideAllSections st
  { st with downloadFilename := resp.filename,
            sections := { st.sections with successHidden := false } }

/-- Remove the `selected` class from every rendered quality button. -/
def clearSelected : List QualityButton → List QualityButton
  | [] => []
  | b :: bs => { b with selected := false } :: clearSelected bs

/-- Remove the `selected` class everywhere, then add it to the button at
index `i` (the net effect of the loop plus `classList.add` in
`handleQualitySelection`). -/
def setSelected : Nat → List QualityButton → List QualityButton
  | _, [] => []
  | 0, b :: bs => { b with selected := true } :: clearSelected bs
  | n + 1, b :: bs => { b with selected := false } :: setSelected n bs

/-- `updateDownloadSection`: if some rendered button carries the
`selected` class, copy its dataset into the two summary spans. -/
def updateDownloadSection (st : AppState) : AppState :=
  match st.buttons.find? (fun b => b.selected) with
  | some b =>
    { st with selectedQualitySpan := "Quality: " ++ b.quality,
              fileSizeSpan := "Size: " ++ b.filesize }
  | none => st

/-- `handleQualitySelection(button)` where `button` is the rendered
button at index `i`: re-mark the selection, store the button's dataset in
`selectedQuality` / `selectedFormatId`, refresh the summary spans and
unhide the download section.  (In the DOM the argument is always one of
the rendered buttons; an out-of-range index leaves the state unchanged.) -/
def handleQualitySelection (i : Nat) (st : AppState) : AppState :=
  match st.buttons[i]? with
  | none => st
  | some b =>
    let st1 := { st with buttons := setSelected i st.buttons,
                          selectedQuality := some b.quality,
                          selectedFormatId := some b.formatId }
    showDownloadSection (updateDownloadSection st1)

/-- `generateQualityButtons(formats)`: render one button per format in
backend order, then auto-select the first one if any. -/
def generateQualityButtons (formats : List FormatOption) (st : AppState) : AppState :=
  let newButtons := formats.map (fun f => ⟨f.quality, f.format_id, f.filesize_formatted, false⟩)
  let st1 := { st with buttons := newButtons }
  if st1.buttons.isEmpty then st1 else handleQualitySelection 0 st1

/-- `displayVideoPreview(videoInfo)`: populate the text fields
(counts via `formatNumber`) and render the quality buttons. -/
def displayVideoPreview (info : VideoInfo) (st : AppState) : AppState :=
  let st1 := { st with
    thumbnailSrc := info.thumbnail,
    videoTitleText := info.title,
    videoUploaderText := "By " ++ info.uploader,
    videoDurationText := info.duration_formatted,
    videoViewsText := formatNumber info.view_count ++ " views",
    videoLikesText := formatNumber info.like_count ++ " likes" }
  generateQualityButtons info.formats st1

/-- The continuation of `getVideoPreview(url)` after the awaited network
call resolves: on success store the preview, render it and show the
preview section; on failure humanize the error and show it. -/
def getVideoPreviewStep (st : AppState) (res : Except String VideoInfo) : AppState :=
  match res with
  | Except.ok info =>
    let st1 := { st with currentVideoInfo := some info }
    showPreview (displayVideoPreview info st1)
  | Except.error e => showError (handleError e) st

/-- `handlePreviewClick`: trim the input; an empty or non-validating url
is rejected with a literal message and no request; otherwise the loading
section is shown and a preview request for the url is issued (returned as
`some url`). -/
def handlePreviewClick (st : AppState) : AppState × Option String :=
  let url := trimStr st.videoUrlInput
  if url = "" then
    (showError "Please enter a YouTube video URL" st, none)
  else if validateYouTubeURL url = false then
    (showError "Please enter a valid YouTube video URL" st, none)
  else
    (showLoading st, some (trimStr url))

/-- JS truthiness of an optional string: `none` and the empty string are
falsy. -/
def jsFalsyStr : Option String → Bool
  | none => true
  | some s => s = ""

/-- `response.message || default`: the message unless it is absent or
empty. -/
def jsOrDefault (m : Option String) (d : String) : String :=
  match m with
  | some s => if s = "" then d else s
  | none => d

/-- `handleDownloadClick`: without a stored preview or a (truthy)
selected quality the click is rejected locally with a literal message;
otherwise a download request is issued (returned as `some request`) built
from the current input value (trimmed by the API layer), the selected
quality and the selected format id. -/
def handleDownloadClick (st : AppState) : AppState × Option DownloadRequest :=
  if st.currentVideoInfo = none || jsFalsyStr st.selectedQuality then
    (showError "Please select a video quality first" st, none)
  else
    (st, some ⟨trimStr st.videoUrlInput,
               (st.selectedQuality).getD "",
               st.selectedFormatId⟩)

/-- The continuation of `downloadVideo` after the awaited network call
resolves: a 2xx body with `success` shows the success section; a 2xx body
without it shows the raw `message` (or `"Download failed"`); a thrown
error is humanized and shown. -/
def downloadVideoStep (st : AppState) (res : Except String DownloadResponse) : AppState :=
  match res with
  | Except.ok resp =>
    if resp.success then showSuccess resp st
    else showError (jsOrDefault resp.message "Download failed") st
  | Except.error e => showError (handleError e) st

/-- The visibility pattern in which exactly the error section is
visible. -/
def sectionsErrorOnly : Sections := ⟨true, true, false, true, true⟩

/-- The visibility pattern in which exactly the success section is
visible. -/
def sectionsSuccessOnly : Sections := ⟨true, true, true, false, true⟩

/-- A concrete controller state used to instantiate theorems: fresh
page, one preview already rendered with two quality buttons, first one
selected. -/
def sampleState : AppState where
  currentVideoInfo := some ⟨"T", "U", "3:00", 1500, 10, "th.jpg",
    [⟨"1080p", "f1", "50MB"⟩, ⟨"720p", "f2", "30MB"⟩]⟩
  selectedQuality := some "1080p"
  selectedFormatId := some "f1"
  videoUrlInput := "https://youtu.be/abc123"
  sections := ⟨true, false, true, true, false⟩
  errorMessage := ""
  buttons := [⟨"1080p", "f1", "50MB", true⟩, ⟨"720p", "f2", "30MB", false⟩]
  selectedQualitySpan := "Quality: 1080p"
  fileSizeSpan := "Size: 50MB"
  videoTitleText := "T"
  videoUploaderText := "By U"
  videoDurationText := "3:00"
  videoViewsText := "1.5K views"
  videoLikesText := "10 likes"
  thumbnailSrc := "th.jpg"
  downloadFilename := none

/-- A concrete empty controller state (everything hidden, nothing
stored). -/
def emptyState : AppState where
  currentVideoInfo := none
  selectedQuality := none
  selectedFormatId := none
  videoUrlInput := ""
  sections := ⟨true, true, true, true, true⟩
  errorMessage := ""
  buttons := []
  selectedQualitySpan := ""
  fileSizeSpan := ""
  videoTitleText := ""
  videoUploaderText := ""
  videoDurationText := ""
  videoViewsText := ""
  videoLikesText := ""
  thumbnailSrc := ""
  downloadFilename := none

end App

/-- C3 counterexample: the claim asserts
`extractVideoID "https://x.com/watch?v=abc123&t=5" = some "abc123"`, but
the function validates the url first and the `x.com` host matches none of
the four recognized patterns, so the result is `none`. -/
theorem C3_extractVideoID_xcom_cex :
    ¬ (VideoAPI.extractVideoID "https://x.com/watch?v=abc123&t=5" = some "abc123") := by
  decide

/-- C3 (amended): `extractVideoID "https://youtu.be/abc123" = "abc123"`;
`extractVideoID "https://x.com/watch?v=abc123&t=5" = none` because the
url fails validation; every url failing the four recognized validation
patterns yields `none`; when validation passes, the result is the first
capturing group of the first matching pattern among the four extraction
patterns `[?&]v=`, `youtu.be/`, `embed/`, `/v/` tried in that order (so a
`v=` query parameter takes precedence even over the path form that made
the url validate, as the embed example shows). -/
theorem C3_extractVideoID_amended :
    VideoAPI.extractVideoID "https://youtu.be/abc123" = some "abc123" ∧
    VideoAPI.extractVideoID "https://x.com/watch?v=abc123&t=5" = none ∧
    VideoAPI.extractVideoID "https://www.youtube.com/embed/xyz?v=www-1" = some "www-1" ∧
    ∀ url : String, VideoAPI.validateYouTubeURL url = false →
      VideoAPI.extractVideoID url = none := by
  refine ⟨by decide, by decide, by decide, ?_⟩
  intro url h
  simp [VideoAPI.extractVideoID, h]

/-- C3 witness: the general clause of the amended claim applied at a
concrete non-matching url. -/
theorem C3_extractVideoID_amended_witness :
    VideoAPI.extractVideoID "https://vimeo.com/123" = none :=
  C3_extractVideoID_amended.2.2.2 "https://vimeo.com/123" (by decide)

/-- C8: `validateYouTubeURL` accepts each of the four recognized URL
shapes (`watch?v=`, short-link, embed, `/v/`, with optional `www.` and
either scheme) and rejects strings without a recognized host/path
pattern, e.g. `"https://vimeo.com/123"`, the empty string, a url without
a scheme, and an upper-cased host (host matching is case-sensitive). -/
theorem C8_validateYouTubeURL_spec :
    VideoAPI.validateYouTubeURL "https://www.youtube.com/watch?v=dQw4w9WgXcQ" = true ∧
    VideoAPI.validateYouTubeURL "http://youtube.com/watch?v=a" = true ∧
    VideoAPI.validateYouTubeURL "https://youtu.be/abc-123" = true ∧
    VideoAPI.validateYouTubeURL "https://www.youtube.com/embed/abc_1" = true ∧
    VideoAPI.validateYouTubeURL "http://www.youtube.com/v/xyz" = true ∧
    VideoAPI.validateYouTubeURL "https://vimeo.com/123" = false ∧
    VideoAPI.validateYouTubeURL "" = false ∧
    VideoAPI.validateYouTubeURL "youtube.com/watch?v=x" = false ∧
    VideoAPI.validateYouTubeURL "HTTPS://YOUTU.BE/ABC" = false := by
  decide

/-- C9: `formatNumber` returns the plain decimal string below `1e3` and
scales with one decimal place and a `K`/`M`/`B` suffix at the
`1e3`/`1e6`/`1e9` thresholds; in particular `999 ↦ "999"`,
`1500 ↦ "1.5K"`, `2300000 ↦ "2.3M"`.  The `1150` and `1950` instances
pin the double-precision rounding of the quotient: the program (and the
model) yields `"1.1K"` and `"1.9K"`, not the exact-rational
half-away-from-zero values `"1.2K"` / `"2.0K"`. -/
theorem C9_formatNumber_spec :
    VideoAPI.formatNumber 999 = "999" ∧
    VideoAPI.formatNumber 1500 = "1.5K" ∧
    VideoAPI.formatNumber 2300000 = "2.3M" ∧
    VideoAPI.formatNumber 1150 = "1.1K" ∧
    VideoAPI.formatNumber 1950 = "1.9K" ∧
    (∀ n : Nat, n < 1000 → VideoAPI.formatNumber n = toString n) ∧
    (∀ n : Nat, 1000 ≤ n → n < 1000000 →
      VideoAPI.formatNumber n = VideoAPI.toFixed1 n 1000 ++ "K") ∧
    (∀ n : Nat, 1000000 ≤ n → n < 1000000000 →
      VideoAPI.formatNumber n = VideoAPI.toFixed1 n 1000000 ++ "M") ∧
    (∀ n : Nat, 1000000000 ≤ n →
      VideoAPI.formatNumber n = VideoAPI.toFixed1 n 1000000000 ++ "B") := by
  refine ⟨by decide, by decide, by decide, by decide, by decide, ?_, ?_, ?_, ?_⟩ <;>
      intro n <;> intros <;> unfold VideoAPI.formatNumber
  · rw [if_neg (by omega), if_neg (by omega), if_neg (by omega)]
  · rw [if_neg (by omega), if_neg (by omega), if_pos (by omega)]
  · rw [if_neg (by omega), if_pos (by omega)]
  · rw [if_pos (by omega)]

/-- C9 witness: the threshold clauses applied at concrete inputs. -/
theorem C9_formatNumber_spec_witness :
    VideoAPI.formatNumber 5 = "5" ∧
    VideoAPI.formatNumber 1000 = "1.0K" ∧
    VideoAPI.formatNumber 2000000 = "2.0M" ∧
    VideoAPI.formatNumber 3000000000 = "3.0B" :=
  ⟨C9_formatNumber_spec.2.2.2.2.2.1 5 (by decide),
   (C9_formatNumber_spec.2.2.2.2.2.2.1 1000 (by decide) (by decide)).trans (by decide),
   (C9_formatNumber_spec.2.2.2.2.2.2.2.1 2000000 (by decide) (by decide)).trans (by decide),
   (C9_formatNumber_spec.2.2.2.2.2.2.2.2 3000000000 (by decide)).trans (by decide)⟩

/-- C1 counterexample: a 2xx download response with `success:false` and
server message `"boom"` puts the raw string `"boom"` in the error
region, which is not the humanized form (`handleError "boom"` is
`"Error: boom"`), contradicting the claim that every displayed error
message is the output of `handleError`. -/
theorem C1_raw_message_cex :
    (App.downloadVideoStep App.sampleState
        (Except.ok ⟨false, none, some "boom"⟩)).errorMessage = "boom" ∧
    VideoAPI.handleError "boom" = "Error: boom" ∧
    (App.downloadVideoStep App.sampleState
        (Except.ok ⟨false, none, some "boom"⟩)).errorMessage ≠
      VideoAPI.handleError "boom" := by
  refine ⟨by decide, by decide, by decide⟩

/-- C1 (amended): errors thrown by the network layer during preview or
download are funneled through `handleError` before display; but a 2xx
download response carrying `success:false` displays the raw
server-provided message (`message || "Download failed"`) unhumanized,
and the two client-side validation failures display fixed literal
messages rather than `handleError` output. -/
theorem C1_error_humanization_amended (st : App.AppState) (e : String)
    (resp : App.DownloadResponse) :
    ((App.downloadVideoStep st (Except.error e)).errorMessage =
      VideoAPI.handleError e) ∧
    ((App.getVideoPreviewStep st (Except.error e)).errorMessage =
      VideoAPI.handleError e) ∧
    (resp.success = false →
      (App.downloadVideoStep st (Except.ok resp)).errorMessage =
        App.jsOrDefault resp.message "Download failed") ∧
    (VideoAPI.trimStr st.videoUrlInput = "" →
      (App.handlePreviewClick st).1.errorMessage =
        "Please enter a YouTube video URL") ∧
    (VideoAPI.trimStr st.videoUrlInput ≠ "" →
      VideoAPI.validateYouTubeURL (VideoAPI.trimStr st.videoUrlInput) = false →
      (App.handlePreviewClick st).1.errorMessage =
        "Please enter a valid YouTube video URL") := by
  refine ⟨rfl, rfl, fun h => ?_, fun h => ?_, fun h1 h2 => ?_⟩
  · simp [App.downloadVideoStep, h, App.showError, App.hideAllSections]
  · simp [App.handlePreviewClick, h, App.showError, App.hideAllSections]
  · simp [App.handlePreviewClick, h1, h2, App.showError, App.hideAllSections]

/-- C1 witness: the `success:false` clause and the empty-input clause of
the amended claim at concrete inputs. -/
theorem C1_error_humanization_amended_witness :
    ((App.downloadVideoStep App.emptyState
        (Except.ok ⟨false, none, none⟩)).errorMessage =
      App.jsOrDefault none "Download failed") ∧
    ((App.handlePreviewClick App.emptyState).1.errorMessage =
      "Please enter a YouTube video URL") :=
  ⟨(C1_error_humanization_amended App.emptyState "e" ⟨false, none, none⟩).2.2.1 rfl,
   (C1_error_humanization_amended App.emptyState "e" ⟨false, none, none⟩).2.2.2.1 (by decide)⟩

/-- C2: after a download response the controller shows exactly one
section: `success:true` leaves exactly the success region visible,
`success:false` and a thrown error leave exactly the error region
visible; the loading, preview and download-options regions carry the
hidden flag in every case. -/
theorem C2_download_outcome_sections (st : App.AppState)
    (resp : App.DownloadResponse) (e : String) :
    (resp.success = true →
      (App.downloadVideoStep st (Except.ok resp)).sections =
        App.sectionsSuccessOnly) ∧
    (resp.success = false →
      (App.downloadVideoStep st (Except.ok resp)).sections =
        App.sectionsErrorOnly) ∧
    (App.downloadVideoStep st (Except.error e)).sections =
      App.sectionsErrorOnly := by
  refine ⟨fun h => ?_, fun h => ?_, ?_⟩
  · simp [App.downloadVideoStep, h, App.showSuccess, App.hideAllSections,
      App.sectionsSuccessOnly]
  · simp [App.downloadVideoStep, h, App.showError, App.hideAllSections,
      App.sectionsErrorOnly]
  · rfl

/-- C2 witness: both response clauses at concrete states and responses. -/
theorem C2_download_outcome_sections_witness :
    (App.downloadVideoStep App.sampleState
        (Except.ok ⟨true, some "f.mp4", none⟩)).sections =
      App.sectionsSuccessOnly ∧
    (App.downloadVideoStep App.sampleState
        (Except.ok ⟨false, none, some "no"⟩)).sections =
      App.sectionsErrorOnly :=
  ⟨(C2_download_outcome_sections App.sampleState ⟨true, some "f.mp4", none⟩ "e").1 rfl,
   (C2_download_outcome_sections App.sampleState ⟨false, none, some "no"⟩ "e").2.1 rfl⟩

/-- C5: a failed preview call leaves the stored `currentVideoInfo`,
`selectedQuality` and `selectedFormatId` (and the rendered buttons)
exactly as they were before the attempt, through the whole flow
(loading shown, then the error handler). -/
theorem C5_failed_preview_preserves_state (st : App.AppState) (e : String) :
    ((App.getVideoPreviewStep (App.showLoading st)
        (Except.error e)).currentVideoInfo = st.currentVideoInfo) ∧
    ((App.getVideoPreviewStep (App.showLoading st)
        (Except.error e)).selectedQuality = st.selectedQuality) ∧
    ((App.getVideoPreviewStep (App.showLoading st)
        (Except.error e)).selectedFormatId = st.selectedFormatId) ∧
    ((App.getVideoPreviewStep (App.showLoading st)
        (Except.error e)).buttons = st.buttons) := by
  exact ⟨rfl, rfl, rfl, rfl⟩

/-- C7: a download click with no stored preview or no selected quality
is rejected locally: the state becomes the error state with the literal
message `"Please select a video quality first"` and no request is
issued. -/
theorem C7_download_without_selection_rejected (st : App.AppState)
    (h : st.currentVideoInfo = none ∨ st.selectedQuality = none) :
    App.handleDownloadClick st =
      (App.showError "Please select a video quality first" st, none) := by
  rcases h with h | h <;> simp [App.handleDownloadClick, App.jsFalsyStr, h]

/-- C7 witness: the rejection at the concrete empty state. -/
theorem C7_download_without_selection_rejected_witness :
    App.handleDownloadClick App.emptyState =
      (App.showError "Please select a video quality first" App.emptyState, none) :=
  C7_download_without_selection_rejected App.emptyState (Or.inl rfl)

/-- `dropWhile` is the identity on any prefix of a list it leaves
unchanged. -/
theorem dropWhile_of_prefix {α : Type} (p : α → Bool) {t m : List α}
    (hpre : t <+: m) (hm : m.dropWhile p = m) : t.dropWhile p = t := by
  cases t with
  | nil => rfl
  | cons a t' =>
    obtain ⟨r, rfl⟩ := hpre
    simp only [List.cons_append] at hm
    rw [List.dropWhile_cons] at hm ⊢
    by_cases hpa : p a = true
    · exfalso
      rw [if_pos hpa] at hm
      have hlen : (List.dropWhile p (t' ++ r)).length ≤ (t' ++ r).length :=
        (List.dropWhile_suffix p).length_le
      have hmlen : (List.dropWhile p (t' ++ r)).length = (t' ++ r).length + 1 := by
        rw [hm]
        rfl
      omega
    · simp [hpa]

/-- Trimming is idempotent. -/
theorem trimList_idem (l : List Char) :
    VideoAPI.trimList (VideoAPI.trimList l) = VideoAPI.trimList l := by
  unfold VideoAPI.trimList
  have h1 : (l.dropWhile VideoAPI.isWsChar).dropWhile VideoAPI.isWsChar =
      l.dropWhile VideoAPI.isWsChar := List.dropWhile_idempotent _ _
  have h2 : ((l.dropWhile VideoAPI.isWsChar).rdropWhile VideoAPI.isWsChar).dropWhile
      VideoAPI.isWsChar = (l.dropWhile VideoAPI.isWsChar).rdropWhile VideoAPI.isWsChar :=
    dropWhile_of_prefix _ (List.rdropWhile_prefix _ _) h1
  rw [h2, List.rdropWhile_idempotent]

/-- C4: a preview submission whose input fails URL validation issues no
network request and leaves the controller in the error state (exactly
the error region visible). -/
theorem C4_invalid_url_rejected_before_network (st : App.AppState)
    (h : VideoAPI.validateYouTubeURL st.videoUrlInput = false) :
    (App.handlePreviewClick st).2 = none ∧
    (App.handlePreviewClick st).1.sections = App.sectionsErrorOnly := by
  by_cases he : VideoAPI.trimStr st.videoUrlInput = ""
  · constructor <;>
      simp [App.handlePreviewClick, he, App.showError, App.hideAllSections,
        App.sectionsErrorOnly]
  · have hv : VideoAPI.validateYouTubeURL (VideoAPI.trimStr st.videoUrlInput) = false := by
      unfold VideoAPI.validateYouTubeURL at h ⊢
      rw [if_neg he]
      show VideoAPI.matchesAnyPattern
        (VideoAPI.trimList (VideoAPI.trimList st.videoUrlInput.data)) = false
      rw [trimList_idem]
      by_cases hi : st.videoUrlInput = ""
      · exfalso
        apply he
        rw [hi]
        rfl
      · rw [if_neg hi] at h
        exact h
    constructor <;>
      simp [App.handlePreviewClick, he, hv, App.showError, App.hideAllSections,
        App.sectionsErrorOnly]

/-- C4 witness: the rejection at a concrete state holding a
non-YouTube url. -/
theorem C4_invalid_url_rejected_before_network_witness :
    (App.handlePreviewClick { App.emptyState with
      videoUrlInput := "https://vimeo.com/123" }).2 = none ∧
    (App.handlePreviewClick { App.emptyState with
      videoUrlInput := "https://vimeo.com/123" }).1.sections = App.sectionsErrorOnly :=
  C4_invalid_url_rejected_before_network
    { App.emptyState with videoUrlInput := "https://vimeo.com/123" } (by decide)

/-- No button of a cleared list carries the `selected` class. -/
theorem clearSelected_countP (bs : List App.QualityButton) :
    (App.clearSelected bs).countP (fun b => b.selected) = 0 := by
  induction bs with
  | nil => rfl
  | cons b bs ih => simp [App.clearSelected, List.countP_cons, ih]

/-- After `setSelected i`, exactly one rendered button carries the
`selected` class (whenever `i` is in range). -/
theorem setSelected_countP (i : Nat) (bs : List App.QualityButton)
    (h : i < bs.length) :
    (App.setSelected i bs).countP (fun b => b.selected) = 1 := by
  induction bs generalizing i with
  | nil => simp at h
  | cons b bs ih =>
    cases i with
    | zero => simp [App.setSelected, List.countP_cons, clearSelected_countP]
    | succ n =>
      have hn : n < bs.length := by simpa using h
      simp [App.setSelected, List.countP_cons, ih n hn]

/-- Clearing the selection twice is the same as clearing it once. -/
theorem clearSelected_idem (bs : List App.QualityButton) :
    App.clearSelected (App.clearSelected bs) = App.clearSelected bs := by
  induction bs with
  | nil => rfl
  | cons b bs ih => simp [App.clearSelected, ih]

/-- Re-selecting the same index leaves the button list unchanged. -/
theorem setSelected_idem (i : Nat) (bs : List App.QualityButton) :
    App.setSelected i (App.setSelected i bs) = App.setSelected i bs := by
  induction bs generalizing i with
  | nil => cases i <;> rfl
  | cons b bs ih =>
    cases i with
    | zero => simp [App.setSelected, clearSelected_idem]
    | succ n => simp [App.setSelected, ih n]

/-- The button at the selected index after `setSelected i` is the
original button with the `selected` class added. -/
theorem setSelected_getElem (i : Nat) (bs : List App.QualityButton)
    (b : App.QualityButton) (h : bs[i]? = some b) :
    (App.setSelected i bs)[i]? = some { b with selected := true } := by
  induction bs generalizing i with
  | nil => simp at h
  | cons x bs ih =>
    cases i with
    | zero =>
      simp at h
      subst h
      simp [App.setSelected]
    | succ n =>
      simp at h
      simpa [App.setSelected] using ih n h

/-- The first (and only) selected button after `setSelected i` is the
button at index `i` with the `selected` class added. -/
theorem find?_setSelected (i : Nat) (bs : List App.QualityButton)
    (b : App.QualityButton) (h : bs[i]? = some b) :
    (App.setSelected i bs).find? (fun x => x.selected) =
      some { b with selected := true } := by
  induction bs generalizing i with
  | nil => simp at h
  | cons x bs ih =>
    cases i with
    | zero =>
      simp at h
      subst h
      simp [App.setSelected, List.find?]
    | succ n =>
      simp at h
      simpa [App.setSelected, List.find?] using ih n h

/-- `handleQualitySelection` in closed form when the clicked button is
the rendered button `b` at index `i`. -/
theorem handleQualitySelection_eq (i : Nat) (st : App.AppState)
    (b : App.QualityButton) (hb : st.buttons[i]? = some b)
    (hfind : (App.setSelected i st.buttons).find? (fun x => x.selected) =
      some { b with selected := true }) :
    App.handleQualitySelection i st =
      { st with buttons := App.setSelected i st.buttons,
                selectedQuality := some b.quality,
                selectedFormatId := some b.formatId,
                selectedQualitySpan := "Quality: " ++ b.quality,
                fileSizeSpan := "Size: " ++ b.filesize,
                sections := { st.sections with downloadHidden := false } } := by
  unfold App.handleQualitySelection
  rw [hb]
  unfold App.updateDownloadSection
  simp only [hfind]
  rfl

/-- C6: selecting the rendered quality button at index `i` leaves
exactly one button marked selected, and re-selecting the same button is
a no-op: the whole controller state (selection, summary spans, section
flags) is re-confirmed unchanged. -/
theorem C6_selection_exactly_one_and_idempotent (i : Nat) (st : App.AppState)
    (h : i < st.buttons.length) :
    ((App.handleQualitySelection i st).buttons.countP (fun b => b.selected) = 1) ∧
    App.handleQualitySelection i (App.handleQualitySelection i st) =
      App.handleQualitySelection i st := by
  have hb : st.buttons[i]? = some st.buttons[i] := List.getElem?_eq_getElem h
  have hfind := find?_setSelected i st.buttons st.buttons[i] hb
  have h1 := handleQualitySelection_eq i st st.buttons[i] hb hfind
  constructor
  · rw [h1]
    exact setSelected_countP i st.buttons h
  · rw [h1]
    have hb2 : (App.setSelected i st.buttons)[i]? =
        some { st.buttons[i] with selected := true } :=
      setSelected_getElem i st.buttons st.buttons[i] hb
    have hfind2 : (App.setSelected i (App.setSelected i st.buttons)).find?
        (fun x => x.selected) =
        some { st.buttons[i] with selected := true } := by
      rw [setSelected_idem]
      exact hfind
    have h2 := handleQualitySelection_eq i
      { st with buttons := App.setSelected i st.buttons,
                selectedQuality := some st.buttons[i].quality,
                selectedFormatId := some st.buttons[i].formatId,
                selectedQualitySpan := "Quality: " ++ st.buttons[i].quality,
                fileSizeSpan := "Size: " ++ st.buttons[i].filesize,
                sections := { st.sections with downloadHidden := false } }
      { st.buttons[i] with selected := true } hb2 hfind2
    rw [h2]
    simp [setSelected_idem]

/-- C6 witness: selecting the second of the two rendered buttons of the
sample state. -/
theorem C6_selection_exactly_one_and_idempotent_witness :
    ((App.handleQualitySelection 1 App.sampleState).buttons.countP
      (fun b => b.selected) = 1) ∧
    App.handleQualitySelection 1 (App.handleQualitySelection 1 App.sampleState) =
      App.handleQualitySelection 1 App.sampleState :=
  C6_selection_exactly_one_and_idempotent 1 App.sampleState (by decide)

/-- C10: after a successful preview (which auto-selects the first
format `b`), editing the URL input to `u2` and confirming the download
issues a request whose `url` field is the current input (as trimmed by
the API layer) while `quality` and `format_id` still come from the old
preview's auto-selected format. -/
theorem C10_download_request_uses_current_input (st : App.AppState)
    (u2 : String) (info : App.VideoInfo) (b : App.FormatOption)
    (hb : info.formats[0]? = some b) (hq : b.quality ≠ "") :
    (App.handleDownloadClick
      { App.getVideoPreviewStep (App.showLoading st) (Except.ok info) with
        videoUrlInput := u2 }).2 =
      some ⟨VideoAPI.trimStr u2, b.quality, some b.format_id⟩ := by
  cases hf : info.formats with
  | nil => rw [hf] at hb; simp at hb
  | cons f fs =>
    rw [hf] at hb
    simp at hb
    subst hb
    simp [App.getVideoPreviewStep, App.displayVideoPreview,
      App.generateQualityButtons, hf, App.handleQualitySelection,
      App.setSelected, App.updateDownloadSection, App.showDownloadSection,
      App.showPreview, App.hideAllSections, App.showLoading, List.find?,
      App.handleDownloadClick, App.jsFalsyStr, hq]

/-- C10 witness: the scenario at concrete inputs (preview fetched for
`youtu.be/abc123`, input edited to `youtu.be/zzz` before the download
click). -/
theorem C10_download_request_uses_current_input_witness :
    (App.handleDownloadClick
      { App.getVideoPreviewStep
          (App.showLoading { App.emptyState with
            videoUrlInput := "https://youtu.be/abc123" })
          (Except.ok ⟨"T", "U", "3:00", 1500, 10, "th.jpg",
            [⟨"1080p", "f1", "50MB"⟩, ⟨"720p", "f2", "30MB"⟩]⟩) with
        videoUrlInput := " https://youtu.be/zzz " }).2 =
      some ⟨VideoAPI.trimStr " https://youtu.be/zzz ", "1080p", some "f1"⟩ :=
  C10_download_request_uses_current_input
    { App.emptyState with videoUrlInput := "https://youtu.be/abc123" }
    " https://youtu.be/zzz "
    ⟨"T", "U", "3:00", 1500, 10, "th.jpg",
      [⟨"1080p", "f1", "50MB"⟩, ⟨"720p", "f2", "30MB"⟩]⟩
    ⟨"1080p", "f1", "50MB"⟩ (by decide) (by decide)
